import Mathlib

/-!
Shallow embedding of the spawning engine of the Passenger repository:
the `Journey` step state machine (`src/agent/Core/SpawningKit/Journey.h`),
the parts of `SmartSpawner` (`src/agent/Core/SpawningKit/SmartSpawner.h`)
that handle preloader fork commands, crash recovery, response reading,
UID verification and timeout adjustment, and the parts of the spawn
environment setupper (`src/agent/SpawnEnvSetupper/SpawnEnvSetupperMain.cpp`)
that set environment variables and switch the process group.

C++ enums become Lean inductives, the `std::map<JourneyStep, JourneyStepInfo>`
becomes a function `JourneyStep → Option JourneyStepInfo` (iteration in key
order is modelled by scanning the declaration-ordered list of all steps),
thrown exceptions become `Except`/dedicated outcome types, and reads of the
monotonic clock become an explicit `now` argument.
-/

namespace SpawningKit

/-- `enum JourneyType` from Journey.h. -/
inductive JourneyType
  | SPAWN_DIRECTLY
  | START_PRELOADER
  | SPAWN_THROUGH_PRELOADER
deriving DecidableEq, Repr, Fintype

/-- `enum JourneyStep` from Journey.h, in source declaration order. -/
inductive JourneyStep
  | SPAWNING_KIT_PREPARATION
  | SPAWNING_KIT_FORK_SUBPROCESS
  | SPAWNING_KIT_CONNECT_TO_PRELOADER
  | SPAWNING_KIT_SEND_COMMAND_TO_PRELOADER
  | SPAWNING_KIT_READ_RESPONSE_FROM_PRELOADER
  | SPAWNING_KIT_PARSE_RESPONSE_FROM_PRELOADER
  | SPAWNING_KIT_PROCESS_RESPONSE_FROM_PRELOADER
  | SPAWNING_KIT_HANDSHAKE_PERFORM
  | SPAWNING_KIT_FINISH
  | PRELOADER_PREPARATION
  | PRELOADER_FORK_SUBPROCESS
  | PRELOADER_SEND_RESPONSE
  | PRELOADER_FINISH
  | SUBPROCESS_BEFORE_FIRST_EXEC
  | SUBPROCESS_SPAWN_ENV_SETUPPER_BEFORE_SHELL
  | SUBPROCESS_OS_SHELL
  | SUBPROCESS_SPAWN_ENV_SETUPPER_AFTER_SHELL
  | SUBPROCESS_EXEC_WRAPPER
  | SUBPROCESS_WRAPPER_PREPARATION
  | SUBPROCESS_APP_LOAD_OR_EXEC
  | SUBPROCESS_PREPARE_AFTER_FORKING_FROM_PRELOADER
  | SUBPROCESS_LISTEN
  | SUBPROCESS_FINISH
  | UNKNOWN_JOURNEY_STEP
deriving DecidableEq, Repr, Fintype

/-- `enum JourneyStepState` from Journey.h. -/
inductive JourneyStepState
  | STEP_NOT_STARTED
  | STEP_IN_PROGRESS
  | STEP_PERFORMED
  | STEP_ERRORED
  | UNKNOWN_JOURNEY_STEP_STATE
deriving DecidableEq, Repr, Fintype

open JourneyType JourneyStep JourneyStepState

/-- Position of a `JourneyStep` in the enum declaration order
(the integer value the C++ compiler assigns to the enumerator). -/
def stepIdx : JourneyStep → Nat
  | SPAWNING_KIT_PREPARATION => 0
  | SPAWNING_KIT_FORK_SUBPROCESS => 1
  | SPAWNING_KIT_CONNECT_TO_PRELOADER => 2
  | SPAWNING_KIT_SEND_COMMAND_TO_PRELOADER => 3
  | SPAWNING_KIT_READ_RESPONSE_FROM_PRELOADER => 4
  | SPAWNING_KIT_PARSE_RESPONSE_FROM_PRELOADER => 5
  | SPAWNING_KIT_PROCESS_RESPONSE_FROM_PRELOADER => 6
  | SPAWNING_KIT_HANDSHAKE_PERFORM => 7
  | SPAWNING_KIT_FINISH => 8
  | PRELOADER_PREPARATION => 9
  | PRELOADER_FORK_SUBPROCESS => 10
  | PRELOADER_SEND_RESPONSE => 11
  | PRELOADER_FINISH => 12
  | SUBPROCESS_BEFORE_FIRST_EXEC => 13
  | SUBPROCESS_SPAWN_ENV_SETUPPER_BEFORE_SHELL => 14
  | SUBPROCESS_OS_SHELL => 15
  | SUBPROCESS_SPAWN_ENV_SETUPPER_AFTER_SHELL => 16
  | SUBPROCESS_EXEC_WRAPPER => 17
  | SUBPROCESS_WRAPPER_PREPARATION => 18
  | SUBPROCESS_APP_LOAD_OR_EXEC => 19
  | SUBPROCESS_PREPARE_AFTER_FORKING_FROM_PRELOADER => 20
  | SUBPROCESS_LISTEN => 21
  | SUBPROCESS_FINISH => 22
  | UNKNOWN_JOURNEY_STEP => 23

/-- All `JourneyStep` enumerators in declaration order.  A
`std::map<JourneyStep, _>` iterates its keys in exactly this order. -/
def allJourneySteps : List JourneyStep :=
  [SPAWNING_KIT_PREPARATION,
   SPAWNING_KIT_FORK_SUBPROCESS,
   SPAWNING_KIT_CONNECT_TO_PRELOADER,
   SPAWNING_KIT_SEND_COMMAND_TO_PRELOADER,
   SPAWNING_KIT_READ_RESPONSE_FROM_PRELOADER,
   SPAWNING_KIT_PARSE_RESPONSE_FROM_PRELOADER,
   SPAWNING_KIT_PROCESS_RESPONSE_FROM_PRELOADER,
   SPAWNING_KIT_HANDSHAKE_PERFORM,
   SPAWNING_KIT_FINISH,
   PRELOADER_PREPARATION,
   PRELOADER_FORK_SUBPROCESS,
   PRELOADER_SEND_RESPONSE,
   PRELOADER_FINISH,
   SUBPROCESS_BEFORE_FIRST_EXEC,
   SUBPROCESS_SPAWN_ENV_SETUPPER_BEFORE_SHELL,
   SUBPROCESS_OS_SHELL,
   SUBPROCESS_SPAWN_ENV_SETUPPER_AFTER_SHELL,
   SUBPROCESS_EXEC_WRAPPER,
   SUBPROCESS_WRAPPER_PREPARATION,
   SUBPROCESS_APP_LOAD_OR_EXEC,
   SUBPROCESS_PREPARE_AFTER_FORKING_FROM_PRELOADER,
   SUBPROCESS_LISTEN,
   SUBPROCESS_FINISH,
   UNKNOWN_JOURNEY_STEP]

/-- `journeyStepToString` from Journey.h (used in exception messages). -/
def journeyStepToString (step : JourneyStep) : String :=
  match step with
  | SPAWNING_KIT_PREPARATION => "SPAWNING_KIT_PREPARATION"
  | SPAWNING_KIT_FORK_SUBPROCESS => "SPAWNING_KIT_FORK_SUBPROCESS"
  | SPAWNING_KIT_CONNECT_TO_PRELOADER => "SPAWNING_KIT_CONNECT_TO_PRELOADER"
  | SPAWNING_KIT_SEND_COMMAND_TO_PRELOADER => "SPAWNING_KIT_SEND_COMMAND_TO_PRELOADER"
  | SPAWNING_KIT_READ_RESPONSE_FROM_PRELOADER => "SPAWNING_KIT_READ_RESPONSE_FROM_PRELOADER"
  | SPAWNING_KIT_PARSE_RESPONSE_FROM_PRELOADER => "SPAWNING_KIT_PARSE_RESPONSE_FROM_PRELOADER"
  | SPAWNING_KIT_PROCESS_RESPONSE_FROM_PRELOADER => "SPAWNING_KIT_PROCESS_RESPONSE_FROM_PRELOADER"
  | SPAWNING_KIT_HANDSHAKE_PERFORM => "SPAWNING_KIT_HANDSHAKE_PERFORM"
  | SPAWNING_KIT_FINISH => "SPAWNING_KIT_FINISH"
  | PRELOADER_PREPARATION => "PRELOADER_PREPARATION"
  | PRELOADER_FORK_SUBPROCESS => "PRELOADER_FORK_SUBPROCESS"
  | PRELOADER_SEND_RESPONSE => "PRELOADER_SEND_RESPONSE"
  | PRELOADER_FINISH => "PRELOADER_FINISH"
  | SUBPROCESS_BEFORE_FIRST_EXEC => "SUBPROCESS_BEFORE_FIRST_EXEC"
  | SUBPROCESS_SPAWN_ENV_SETUPPER_BEFORE_SHELL => "SUBPROCESS_SPAWN_ENV_SETUPPER_BEFORE_SHELL"
  | SUBPROCESS_OS_SHELL => "SUBPROCESS_OS_SHELL"
  | SUBPROCESS_SPAWN_ENV_SETUPPER_AFTER_SHELL => "SUBPROCESS_SPAWN_ENV_SETUPPER_AFTER_SHELL"
  | SUBPROCESS_EXEC_WRAPPER => "SUBPROCESS_EXEC_WRAPPER"
  | SUBPROCESS_WRAPPER_PREPARATION => "SUBPROCESS_WRAPPER_PREPARATION"
  | SUBPROCESS_APP_LOAD_OR_EXEC => "SUBPROCESS_APP_LOAD_OR_EXEC"
  | SUBPROCESS_PREPARE_AFTER_FORKING_FROM_PRELOADER => "SUBPROCESS_PREPARE_AFTER_FORKING_FROM_PRELOADER"
  | SUBPROCESS_LISTEN => "SUBPROCESS_LISTEN"
  | SUBPROCESS_FINISH => "SUBPROCESS_FINISH"
  | UNKNOWN_JOURNEY_STEP => "UNKNOWN_JOURNEY_STEP"

/-- `struct JourneyStepInfo` from Journey.h; the constructor default is
`state = STEP_NOT_STARTED`, `startTime = 0`, `endTime = 0`. -/
structure JourneyStepInfo where
  state : JourneyStepState
  startTime : Nat
  endTime : Nat
deriving DecidableEq, Repr

/-- The fresh info inserted by `Journey::insertStep`. -/
def freshStepInfo : JourneyStepInfo :=
  { state := STEP_NOT_STARTED, startTime := 0, endTime := 0 }

/-- `class Journey`: type, wrapper flag, and the step map.  The C++
`std::map<JourneyStep, JourneyStepInfo>` is embedded as a function
returning `none` for absent keys. -/
structure Journey where
  type : JourneyType
  usingWrapper : Bool
  steps : JourneyStep → Option JourneyStepInfo

/-- Step list of `Journey::fillInStepsForSpawnDirectlyJourney`,
in source insertion order. -/
def fillInStepsForSpawnDirectlyJourney (usingWrapper : Bool) : List JourneyStep :=
  [SPAWNING_KIT_PREPARATION,
   SPAWNING_KIT_FORK_SUBPROCESS,
   SPAWNING_KIT_HANDSHAKE_PERFORM,
   SPAWNING_KIT_FINISH,
   SUBPROCESS_BEFORE_FIRST_EXEC,
   SUBPROCESS_SPAWN_ENV_SETUPPER_BEFORE_SHELL,
   SUBPROCESS_OS_SHELL,
   SUBPROCESS_SPAWN_ENV_SETUPPER_AFTER_SHELL] ++
  (if usingWrapper then
    [SUBPROCESS_EXEC_WRAPPER, SUBPROCESS_WRAPPER_PREPARATION]
   else []) ++
  [SUBPROCESS_APP_LOAD_OR_EXEC,
   SUBPROCESS_LISTEN,
   SUBPROCESS_FINISH]

/-- Step list of `Journey::fillInStepsForPreloaderStartJourney`,
in source insertion order (identical to the spawn-directly list). -/
def fillInStepsForPreloaderStartJourney (usingWrapper : Bool) : List JourneyStep :=
  [SPAWNING_KIT_PREPARATION,
   SPAWNING_KIT_FORK_SUBPROCESS,
   SPAWNING_KIT_HANDSHAKE_PERFORM,
   SPAWNING_KIT_FINISH,
   SUBPROCESS_BEFORE_FIRST_EXEC,
   SUBPROCESS_SPAWN_ENV_SETUPPER_BEFORE_SHELL,
   SUBPROCESS_OS_SHELL,
   SUBPROCESS_SPAWN_ENV_SETUPPER_AFTER_SHELL] ++
  (if usingWrapper then
    [SUBPROCESS_EXEC_WRAPPER, SUBPROCESS_WRAPPER_PREPARATION]
   else []) ++
  [SUBPROCESS_APP_LOAD_OR_EXEC,
   SUBPROCESS_LISTEN,
   SUBPROCESS_FINISH]

/-- Step list of `Journey::fillInStepsForSpawnThroughPreloaderJourney`,
in source insertion order. -/
def fillInStepsForSpawnThroughPreloaderJourney : List JourneyStep :=
  [SPAWNING_KIT_PREPARATION,
   SPAWNING_KIT_CONNECT_TO_PRELOADER,
   SPAWNING_KIT_SEND_COMMAND_TO_PRELOADER,
   SPAWNING_KIT_READ_RESPONSE_FROM_PRELOADER,
   SPAWNING_KIT_PARSE_RESPONSE_FROM_PRELOADER,
   SPAWNING_KIT_PROCESS_RESPONSE_FROM_PRELOADER,
   SPAWNING_KIT_HANDSHAKE_PERFORM,
   SPAWNING_KIT_FINISH,
   PRELOADER_PREPARATION,
   PRELOADER_FORK_SUBPROCESS,
   PRELOADER_SEND_RESPONSE,
   PRELOADER_FINISH,
   SUBPROCESS_PREPARE_AFTER_FORKING_FROM_PRELOADER,
   SUBPROCESS_LISTEN,
   SUBPROCESS_FINISH]

/-- The step set populated by the `Journey(type, usingWrapper)` constructor. -/
def journeyStepList (type : JourneyType) (usingWrapper : Bool) : List JourneyStep :=
  match type with
  | SPAWN_DIRECTLY => fillInStepsForSpawnDirectlyJourney usingWrapper
  | START_PRELOADER => fillInStepsForPreloaderStartJourney usingWrapper
  | SPAWN_THROUGH_PRELOADER => fillInStepsForSpawnThroughPreloaderJourney

/-- The `Journey(type, usingWrapper)` constructor: every listed step is
inserted with a fresh `JourneyStepInfo`. -/
def Journey.new (type : JourneyType) (usingWrapper : Bool) : Journey :=
  { type := type,
    usingWrapper := usingWrapper,
    steps := fun s =>
      if s ∈ journeyStepList type usingWrapper then some freshStepInfo else none }

/-- `Journey::hasStep`. -/
def Journey.hasStep (j : Journey) (step : JourneyStep) : Bool :=
  (j.steps step).isSome

/-- Replace the info of one step (the effect of mutating the
`JourneyStepInfo&` returned by `getStepInfoMutable`). -/
def Journey.updateStep (j : Journey) (step : JourneyStep) (info : JourneyStepInfo) :
    Journey :=
  { j with steps := fun s => if s = step then some info else j.steps s }

/-- Whether the journey's map holds `step` in state `STEP_ERRORED`
(the loop body test of `getFirstFailedStep`). -/
def Journey.stepErroredB (j : Journey) (step : JourneyStep) : Bool :=
  match j.steps step with
  | some info => info.state == STEP_ERRORED
  | none => false

/-- `Journey::getFirstFailedStep`: scan the map in key order and return the
first step whose state is `STEP_ERRORED`, or `UNKNOWN_JOURNEY_STEP`. -/
def Journey.getFirstFailedStep (j : Journey) : JourneyStep :=
  match allJourneySteps.find? j.stepErroredB with
  | some s => s
  | none => UNKNOWN_JOURNEY_STEP

/-- The state of a step as visible through `getStepInfo`. -/
def Journey.stepState (j : Journey) (step : JourneyStep) : Option JourneyStepState :=
  (j.steps step).map JourneyStepInfo.state

/-- `Journey::setStepNotStarted`.  Throwing `RuntimeException` is embedded
as `Except.error`; on success the step's state becomes `STEP_NOT_STARTED`
and its `startTime` is cleared. -/
def Journey.setStepNotStarted (j : Journey) (step : JourneyStep) (force : Bool) :
    Except String Journey :=
  match j.steps step with
  | none => .error ("Invalid step " ++ journeyStepToString step)
  | some info =>
    if info.state == STEP_NOT_STARTED || info.state == STEP_IN_PROGRESS || force then
      .ok (j.updateStep step { info with state := STEP_NOT_STARTED, startTime := 0 })
    else
      .error ("Unable to change state for journey step " ++ journeyStepToString step
        ++ " because it wasn't already in progress")

/-- `Journey::setStepInProgress`; `now` is the monotonic clock value read by
`SystemTime::getMonotonicUsecWithGranularity`. -/
def Journey.setStepInProgress (j : Journey) (step : JourneyStep) (force : Bool)
    (now : Nat) : Except String Journey :=
  match j.steps step with
  | none => .error ("Invalid step " ++ journeyStepToString step)
  | some info =>
    if info.state == STEP_IN_PROGRESS then
      .ok j
    else if info.state == STEP_NOT_STARTED || force then
      .ok (j.updateStep step { info with
        state := STEP_IN_PROGRESS,
        startTime := if info.endTime == 0 then now else info.startTime })
    else
      .error ("Unable to change state for journey step " ++ journeyStepToString step
        ++ " because it was already in progress or completed")

/-- `Journey::setStepPerformed`.  The source guard reads
`if (info.state == STEP_IN_PROGRESS || true)`, which we translate
literally. -/
def Journey.setStepPerformed (j : Journey) (step : JourneyStep) (force : Bool)
    (now : Nat) : Except String Journey :=
  match j.steps step with
  | none => .error ("Invalid step " ++ journeyStepToString step)
  | some info =>
    if info.state == STEP_PERFORMED then
      .ok j
    else if info.state == STEP_IN_PROGRESS || true then
      .ok (j.updateStep step { info with
        state := STEP_PERFORMED,
        endTime := if info.endTime == 0 then now else info.endTime })
    else
      .error ("Unable to change state for journey step " ++ journeyStepToString step
        ++ " because it wasn't already in progress")

/-- `Journey::setStepErrored`. -/
def Journey.setStepErrored (j : Journey) (step : JourneyStep) (force : Bool)
    (now : Nat) : Except String Journey :=
  match j.steps step with
  | none => .error ("Invalid step " ++ journeyStepToString step)
  | some info =>
    if info.state == STEP_ERRORED then
      .ok j
    else if info.state == STEP_IN_PROGRESS || force then
      .ok (j.updateStep step { info with
        state := STEP_ERRORED,
        endTime := if info.endTime == 0 then now else info.endTime })
    else
      .error ("Unable to change state for journey step " ++ journeyStepToString step
        ++ " because it wasn't already in progress")

/-- The spawning-kit error taxonomy (`response/error/category`, §7). -/
inductive ErrorCategory
  | INTERNAL_ERROR
  | OPERATING_SYSTEM_ERROR
  | IO_ERROR
  | TIMEOUT_ERROR
  | UNKNOWN_ERROR
deriving DecidableEq, Repr

/-- The parts of a `SpawnException` that the claims inspect: category,
summary and the journey snapshot it carries. -/
structure SpawnExceptionModel where
  category : ErrorCategory
  summary : String
  journey : Journey

namespace SmartSpawner

/-- 2^64: `MonotonicTimeUsec` and the timeout are C++ `unsigned long long`
values, so subtraction wraps modulo this. -/
def UINT64_MOD : Nat := 2 ^ 64

/-- `SmartSpawner::adjustTimeout` from SmartSpawner.h, translated literally:
`diff = startTime - now` in 64-bit unsigned arithmetic, then
`*timeout -= diff` when `*timeout >= diff`, else `*timeout = 0`.
`startTime` and `now` are values of the monotonic clock (each `< 2^64`). -/
def adjustTimeout (startTime now timeout : Nat) : Nat :=
  let diff := (startTime + UINT64_MOD - now % UINT64_MOD) % UINT64_MOD
  if timeout ≥ diff then timeout - diff else 0

/-- The behavior C3 attributes to `adjustTimeout` (stated from the claim, for
comparison with the source translation): decrement the timeout by the
elapsed monotonic time, saturating at zero. -/
def claimedAdjustTimeout (startTime now timeout : Nat) : Nat :=
  timeout - min timeout (now - startTime)

/-- Modelled from the spec: `BufferedIO::readLine(maxSize, timeout)` is not
part of this repository's sources; per the spec it reads one line bounded
at `maxSize` bytes and raises a `SecurityException` when the response
exceeds the bound.  The line content is modelled as a list of bytes
(`Char`s); `Except.error ()` is the `SecurityException`. -/
def readLine (maxSize : Nat) (line : List Char) : Except Unit (List Char) :=
  if line.length > maxSize then .error () else .ok line

/-- Outcome of a `SmartSpawner` operation that can throw either a
`SpawnException` or a plain `RuntimeException`. -/
inductive SpawnOutcome (α : Type) where
  | ok (a : α)
  | spawnExc (e : SpawnExceptionModel)
  | runtimeExc (msg : String)

/-- `SmartSpawner::readForkCommandResponse`: read one line bounded at 10240
bytes; a `SecurityException` marks `ReadResponseFromPreloader` as errored
and raises an internal-error `SpawnException` with the maximum-size
summary.  `j` is the session journey at the call site and `now` the
monotonic clock. -/
def readForkCommandResponse (j : Journey) (now : Nat) (line : List Char) :
    SpawnOutcome (List Char) :=
  match readLine 10240 line with
  | .ok l => .ok l
  | .error _ =>
    match j.setStepErrored SPAWNING_KIT_READ_RESPONSE_FROM_PRELOADER false now with
    | .ok j' =>
      .spawnExc
        { category := ErrorCategory.INTERNAL_ERROR,
          summary := "The preloader process sent a response that exceeds the maximum size limit.",
          journey := j' }
    | .error msg => .runtimeExc msg

/-- The summary built by `handleForkCommandResponseSuccess` on a UID
mismatch (`PROGRAM_NAME`-free part of SmartSpawner.h lines 684-686). -/
def uidMismatchSummary (spawnedPid spawnedUid expectedUid : Nat) : String :=
  "The process that the preloader said it spawned, PID " ++ toString spawnedPid
    ++ ", has UID " ++ toString spawnedUid ++ ", but the expected UID is "
    ++ toString expectedUid

/-- The problem-description HTML built by `handleForkCommandResponseSuccess`
on a UID mismatch (SmartSpawner.h lines 688-695; `PROGRAM_NAME` rendered as
"Passenger").  Note the source interpolates `session.uid` in both slots. -/
def uidMismatchProblemDescriptionHTML (spawnedUid expectedUid : Nat) : String :=
  "<p>The Passenger application server tried"
    ++ " to start the web application by communicating with a"
    ++ " helper process that we call a \"preloader\". However,"
    ++ " the web application process that the preloader started"
    ++ " belongs to the wrong user. The UID of the web"
    ++ " application process should be " ++ toString expectedUid
    ++ ", but is actually " ++ toString expectedUid ++ ".</p>"

/-- Outcome of `handleForkCommandResponseSuccess`.  `nullPointerDeref`
models the undefined behavior of invoking a method through a null
`BackgroundIOCapturerPtr`. -/
inductive HandleSuccessOutcome where
  | ok (pid : Nat)
  | spawnExc (e : SpawnExceptionModel)
  | runtimeExc (msg : String)
  | nullPointerDeref

/-- `SmartSpawner::handleForkCommandResponseSuccess` (SmartSpawner.h
lines 644-708), for the case where the UID query itself succeeds.
`stdoutAndErrFifoExists` is `fileExists(responseDir + "/stdout_and_err")`;
the `BackgroundIOCapturerPtr` starts out null and is assigned only inside
that `if`.  After a passing UID check the source runs
`stdoutAndErrCapturer->stop()` unconditionally, which dereferences the
pointer even when it is null. -/
def handleForkCommandResponseSuccess (j : Journey) (now : Nat)
    (spawnedPid : Nat) (stdoutAndErrFifoExists : Bool)
    (spawnedUid expectedUid : Nat) : HandleSuccessOutcome :=
  let stdoutAndErrCapturer : Option Unit :=
    if stdoutAndErrFifoExists then some () else none
  if spawnedUid ≠ expectedUid then
    match j.setStepErrored SPAWNING_KIT_PROCESS_RESPONSE_FROM_PRELOADER false now with
    | .ok j' =>
      .spawnExc
        { category := ErrorCategory.INTERNAL_ERROR,
          summary := uidMismatchSummary spawnedPid spawnedUid expectedUid,
          journey := j' }
    | .error msg => .runtimeExc msg
  else
    match stdoutAndErrCapturer with
    | some _ => .ok spawnedPid
    | none => .nullPointerDeref

/-- `struct PreloaderCrashed` (SmartSpawner.h lines 352-378): the sentinel
thrown around preloader I/O, wrapping either a `SystemException` or an
`IOException`; `getException()` returns the wrapped exception, modelled
here by its `what()` message. -/
inductive PreloaderCrashed where
  | systemException (msg : String)
  | ioException (msg : String)
deriving DecidableEq, Repr

/-- `PreloaderCrashed::getException().what()`. -/
def PreloaderCrashed.what : PreloaderCrashed → String
  | .systemException msg => msg
  | .ioException msg => msg

/-- Modelled from the spec: the `SpawnException(originalException, ...)`
constructor lives in Core/SpawningKit/Exceptions.h, which is not under
src/; per §7 the category "is inferred from the underlying exception kind
when propagating", so wrapping a `SystemException` yields
`OperatingSystemError` and wrapping an `IOException` yields `IoError`. -/
def inferredSpawnExceptionCategory : PreloaderCrashed → ErrorCategory
  | .systemException _ => ErrorCategory.OPERATING_SYSTEM_ERROR
  | .ioException _ => ErrorCategory.IO_ERROR

/-- Where (if anywhere) the preloader I/O of one `internalInvokeForkCommand`
attempt crashes, together with the `PreloaderCrashed` sentinel thrown
there.  `noCrash` means the connect/send/read phases all succeed. -/
inductive CrashSite where
  | duringConnect (e : PreloaderCrashed)
  | duringSend (e : PreloaderCrashed)
  | duringRead (e : PreloaderCrashed)
  | noCrash
deriving Repr

/-- Result of one `internalInvokeForkCommand` attempt, modelling only the
connect/send/read phases relevant to preloader-crash recovery:
either the journey has advanced past the read with the three steps
performed, or a `PreloaderCrashed` carries the journey as it stood, or a
journey mutator threw a `RuntimeException`. -/
inductive ForkAttemptResult where
  | ok (j : Journey)
  | preloaderCrashed (e : PreloaderCrashed) (j : Journey)
  | runtimeExc (msg : String)

/-- The connect/send/read prefix of
`SmartSpawner::internalInvokeForkCommand` (SmartSpawner.h lines 464-499):
each phase marks its step in progress, runs the I/O (which may crash) and
marks the step performed. -/
def internalInvokeForkCommand (site : CrashSite) (j : Journey) (now : Nat) :
    ForkAttemptResult :=
  match j.setStepInProgress SPAWNING_KIT_CONNECT_TO_PRELOADER false now with
  | .error m => .runtimeExc m
  | .ok j1 =>
    match site with
    | .duringConnect e => .preloaderCrashed e j1
    | _ =>
      match j1.setStepPerformed SPAWNING_KIT_CONNECT_TO_PRELOADER false now with
      | .error m => .runtimeExc m
      | .ok j2 =>
        match j2.setStepInProgress SPAWNING_KIT_SEND_COMMAND_TO_PRELOADER false now with
        | .error m => .runtimeExc m
        | .ok j3 =>
          match site with
          | .duringSend e => .preloaderCrashed e j3
          | _ =>
            match j3.setStepPerformed SPAWNING_KIT_SEND_COMMAND_TO_PRELOADER false now with
            | .error m => .runtimeExc m
            | .ok j4 =>
              match j4.setStepInProgress SPAWNING_KIT_READ_RESPONSE_FROM_PRELOADER false now with
              | .error m => .runtimeExc m
              | .ok j5 =>
                match site with
                | .duringRead e => .preloaderCrashed e j5
                | _ =>
                  match j5.setStepPerformed SPAWNING_KIT_READ_RESPONSE_FROM_PRELOADER false now with
                  | .error m => .runtimeExc m
                  | .ok j6 => .ok j6

/-- The reset performed by `invokeForkCommand`'s `PreloaderCrashed` handler
(SmartSpawner.h lines 390-392): `setStepNotStarted` on the three preloader
communication steps, with the default `force = false`. -/
def resetPreloaderCommunicationSteps (j : Journey) : Except String Journey := do
  let j1 ← j.setStepNotStarted SPAWNING_KIT_CONNECT_TO_PRELOADER false
  let j2 ← j1.setStepNotStarted SPAWNING_KIT_SEND_COMMAND_TO_PRELOADER false
  j2.setStepNotStarted SPAWNING_KIT_READ_RESPONSE_FROM_PRELOADER false

/-- `SmartSpawner::invokeForkCommand` (SmartSpawner.h lines 380-462),
restricted to the crash-recovery control flow: run the attempt; on
`PreloaderCrashed` reset the three steps, stop and restart the preloader
(assumed to succeed here), retry exactly once; a second `PreloaderCrashed`
stops the preloader, marks `Preparation` errored and raises a
`SpawnException` wrapping the crash's underlying exception — its category
inferred from that exception's kind — whose summary prefixes the crash
message with "An application preloader crashed: ".  A `RuntimeException`
from a journey mutator propagates unchanged. -/
def invokeForkCommand (site1 site2 : CrashSite) (j : Journey) (now : Nat) :
    SpawnOutcome Journey :=
  match internalInvokeForkCommand site1 j now with
  | .ok j' => .ok j'
  | .runtimeExc m => .runtimeExc m
  | .preloaderCrashed _ jc =>
    match resetPreloaderCommunicationSteps jc with
    | .error m => .runtimeExc m
    | .ok jr =>
      match internalInvokeForkCommand site2 jr now with
      | .ok j' => .ok j'
      | .runtimeExc m => .runtimeExc m
      | .preloaderCrashed e2 jc2 =>
        match jc2.setStepErrored SPAWNING_KIT_PREPARATION false now with
        | .error m => .runtimeExc m
        | .ok je =>
          .spawnExc
            { category := inferredSpawnExceptionCategory e2,
              summary := "An application preloader crashed: " ++ e2.what,
              journey := je }

/-- The journey as `SmartSpawner::spawn` has it when calling
`invokeForkCommand`: freshly constructed for `SPAWN_THROUGH_PRELOADER` with
`Preparation` marked in progress (SmartSpawner.h lines 1043-1044). -/
def journeyAtInvokeForkCommand (usingWrapper : Bool) (now : Nat) :
    Except String Journey :=
  (Journey.new SPAWN_THROUGH_PRELOADER usingWrapper).setStepInProgress
    SPAWNING_KIT_PREPARATION false now

/-- `journeyAtInvokeForkCommand` with the error case discharged (the
mutator provably succeeds on the fresh journey). -/
def startJourneyForSpawn : Journey :=
  match journeyAtInvokeForkCommand true 0 with
  | .ok j => j
  | .error _ => Journey.new SPAWN_THROUGH_PRELOADER true

/-- The session journey at the `readForkCommandResponse` call site inside
`internalInvokeForkCommand`: connect and send performed, read in
progress. -/
def journeyAtReadResponse (usingWrapper : Bool) (now : Nat) :
    Except String Journey := do
  let j0 ← journeyAtInvokeForkCommand usingWrapper now
  let j1 ← j0.setStepInProgress SPAWNING_KIT_CONNECT_TO_PRELOADER false now
  let j2 ← j1.setStepPerformed SPAWNING_KIT_CONNECT_TO_PRELOADER false now
  let j3 ← j2.setStepInProgress SPAWNING_KIT_SEND_COMMAND_TO_PRELOADER false now
  let j4 ← j3.setStepPerformed SPAWNING_KIT_SEND_COMMAND_TO_PRELOADER false now
  j4.setStepInProgress SPAWNING_KIT_READ_RESPONSE_FROM_PRELOADER false now

/-- `journeyAtReadResponse` with the error case discharged. -/
def journeyAtRead (usingWrapper : Bool) (now : Nat) : Journey :=
  match journeyAtReadResponse usingWrapper now with
  | .ok j => j
  | .error _ => Journey.new SPAWN_THROUGH_PRELOADER usingWrapper

/-- Boolean check that an outcome is `runtimeExc` with the given message. -/
def SpawnOutcome.isRuntimeExcWith {α : Type} (o : SpawnOutcome α) (msg : String) :
    Bool :=
  match o with
  | .runtimeExc m => m == msg
  | _ => false

/-- Boolean check that an outcome is a `SpawnException` satisfying `p`. -/
def SpawnOutcome.checkSpawnExc {α : Type} (o : SpawnOutcome α)
    (p : SpawnExceptionModel → Bool) : Bool :=
  match o with
  | .spawnExc e => p e
  | _ => false

end SmartSpawner

/-- Analysis fixture: the journey built by the constructor with one step's
info replaced, to probe the mutators from a chosen source state. -/
def journeyWithStepState (type : JourneyType) (usingWrapper : Bool)
    (step : JourneyStep) (st : JourneyStepState) : Journey :=
  (Journey.new type usingWrapper).updateStep step
    { state := st, startTime := 0, endTime := 0 }

/-- The transition behavior the mutators actually implement for a populated
step with `force == false` (C2, amended): `setStepNotStarted` succeeds from
`NotStarted` and `InProgress`; `setStepInProgress` succeeds from
`NotStarted` and (as an idempotent no-op) `InProgress`; `setStepPerformed`
always succeeds (its guard is disabled by `|| true` in the source);
`setStepErrored` succeeds from `InProgress` and (as a no-op) `Errored`;
every other source state makes the mutator fail. -/
def transitionCharacterization (j : Journey) (step : JourneyStep)
    (info : JourneyStepInfo) (now : Nat) : Prop :=
  (j.setStepNotStarted step false).isOk =
      (info.state == STEP_NOT_STARTED || info.state == STEP_IN_PROGRESS)
  ∧ (j.setStepInProgress step false now).isOk =
      (info.state == STEP_NOT_STARTED || info.state == STEP_IN_PROGRESS)
  ∧ (j.setStepPerformed step false now).isOk = true
  ∧ (j.setStepErrored step false now).isOk =
      (info.state == STEP_IN_PROGRESS || info.state == STEP_ERRORED)

/-- What `getFirstFailedStep` guarantees (C7): the `Unknown` sentinel comes
back iff no populated step is errored, and a non-`Unknown` result is an
errored populated step that is least in enum declaration order. -/
def firstFailedCharacterization (j : Journey) : Prop :=
  (j.getFirstFailedStep = UNKNOWN_JOURNEY_STEP ↔
    ∀ s info, j.steps s = some info → info.state ≠ STEP_ERRORED)
  ∧ (∀ s, j.getFirstFailedStep = s → s ≠ UNKNOWN_JOURNEY_STEP →
      (∃ info, j.steps s = some info ∧ info.state = STEP_ERRORED)
      ∧ ∀ s' info', stepIdx s' < stepIdx s → j.steps s' = some info' →
          info'.state ≠ STEP_ERRORED)

/-- The §3 step table as amended by C6's counterexample (stated from the
claim's words, for comparison with the constructor translated from the
source): for `SpawnDirectly` and `StartPreloader`, the four orchestrator
steps plus all subprocess steps except `PrepareAfterForkingFromPreloader`,
wrapper steps present iff `usingWrapper`; for `SpawnThroughPreloader`, the
eight orchestrator steps, all four preloader steps and exactly the three
subprocess steps prepare-after-fork, listen, finish. -/
def amendedJourneyStepTable (type : JourneyType) (usingWrapper : Bool)
    (s : JourneyStep) : Bool :=
  match type with
  | SPAWN_DIRECTLY | START_PRELOADER =>
    s ∈ [SPAWNING_KIT_PREPARATION, SPAWNING_KIT_FORK_SUBPROCESS,
         SPAWNING_KIT_HANDSHAKE_PERFORM, SPAWNING_KIT_FINISH]
    || s ∈ [SUBPROCESS_BEFORE_FIRST_EXEC,
            SUBPROCESS_SPAWN_ENV_SETUPPER_BEFORE_SHELL,
            SUBPROCESS_OS_SHELL,
            SUBPROCESS_SPAWN_ENV_SETUPPER_AFTER_SHELL,
            SUBPROCESS_APP_LOAD_OR_EXEC,
            SUBPROCESS_LISTEN,
            SUBPROCESS_FINISH]
    || (usingWrapper &&
        s ∈ [SUBPROCESS_EXEC_WRAPPER, SUBPROCESS_WRAPPER_PREPARATION])
  | SPAWN_THROUGH_PRELOADER =>
    s ∈ [SPAWNING_KIT_PREPARATION, SPAWNING_KIT_CONNECT_TO_PRELOADER,
         SPAWNING_KIT_SEND_COMMAND_TO_PRELOADER,
         SPAWNING_KIT_READ_RESPONSE_FROM_PRELOADER,
         SPAWNING_KIT_PARSE_RESPONSE_FROM_PRELOADER,
         SPAWNING_KIT_PROCESS_RESPONSE_FROM_PRELOADER,
         SPAWNING_KIT_HANDSHAKE_PERFORM, SPAWNING_KIT_FINISH]
    || s ∈ [PRELOADER_PREPARATION, PRELOADER_FORK_SUBPROCESS,
            PRELOADER_SEND_RESPONSE, PRELOADER_FINISH]
    || s ∈ [SUBPROCESS_PREPARE_AFTER_FORKING_FROM_PRELOADER,
            SUBPROCESS_LISTEN, SUBPROCESS_FINISH]

end SpawningKit

namespace SpawnEnvSetupper

open SpawningKit

/-- The process environment: variable name to value. -/
def Env : Type := String → Option String

/-- `setenv(key, value, 1)`. -/
def setenvF (e : Env) (key value : String) : Env :=
  fun k => if k = key then some value else e k

/-- `unsetenv(key)`. -/
def unsetenvF (e : Env) (key : String) : Env :=
  fun k => if k = key then none else e k

/-- The fields of `args.json` consumed by `setDefaultEnvvars` and
`setGivenEnvVars` in SpawnEnvSetupperMain.cpp.  `environment_variables`
is the JSON object in its iteration order (unique keys). -/
structure SetupperArgs where
  node_libdir : String
  app_env : String
  expected_start_port : Option Int
  base_uri : String
  environment_variables : List (String × String)

/-- `setDefaultEnvvars` (SpawnEnvSetupperMain.cpp lines 666-691). -/
def setDefaultEnvvars (args : SetupperArgs) (env : Env) : Env :=
  let e := setenvF env "PYTHONUNBUFFERED" "1"
  let e := setenvF e "NODE_PATH" args.node_libdir
  let e := setenvF e "RAILS_ENV" args.app_env
  let e := setenvF e "RACK_ENV" args.app_env
  let e := setenvF e "WSGI_ENV" args.app_env
  let e := setenvF e "NODE_ENV" args.app_env
  let e := setenvF e "PASSENGER_APP_ENV" args.app_env
  let e := match args.expected_start_port with
    | some p => setenvF e "PORT" (toString p)
    | none => e
  if args.base_uri ≠ "/" then
    let e := setenvF e "RAILS_RELATIVE_URL_ROOT" args.base_uri
    let e := setenvF e "RACK_BASE_URI" args.base_uri
    setenvF e "PASSENGER_BASE_URI" args.base_uri
  else
    let e := unsetenvF e "RAILS_RELATIVE_URL_ROOT"
    let e := unsetenvF e "RACK_BASE_URI"
    unsetenvF e "PASSENGER_BASE_URI"

/-- `setGivenEnvVars` (SpawnEnvSetupperMain.cpp lines 693-702): `setenv`
each user-specified variable, in order, overwriting. -/
def setGivenEnvVars (args : SetupperArgs) (env : Env) : Env :=
  args.environment_variables.foldl (fun e kv => setenvF e kv.1 kv.2) env

/-- The `--after`-mode environment setup of `spawnEnvSetupperMain`
(SpawnEnvSetupperMain.cpp lines 855-858): defaults, then user vars. -/
def afterModeEnvSetup (args : SetupperArgs) (env : Env) : Env :=
  setGivenEnvVars args (setDefaultEnvvars args env)

/-- System calls issued by `switchGroup`, with their arguments. -/
inductive GroupSyscall where
  | setgroupsCall (ngroups : Nat) (gidset : List Nat)
  | initgroupsCall (userName : String) (gid : Nat)
  | setgidCall (gid : Nat)
deriving DecidableEq, Repr

/-- A fatal setupper error: category and summary recorded, then `exit(1)`. -/
structure FatalSetupperError where
  category : ErrorCategory
  summary : String
deriving DecidableEq, Repr

/-- The OS behavior `switchGroup` interacts with.  `getgrouplistRes` is the
supplementary group list produced by `getgrouplist` for the target user
(or an errno on failure); `uninitMemory n` gives the contents of a freshly
allocated, never-initialized `gid_t[n]` array (`new gid_t[ngroups]`);
`strerror` renders an errno. -/
structure GroupOs where
  ngroupsMax : Nat
  getgrouplistRes : Except Nat (List Nat)
  uninitMemory : Nat → List Nat
  setgroupsErrno : Option Nat
  initgroupsErrno : Option Nat
  setgidErrno : Option Nat
  strerror : Nat → String

/-- Result of `switchGroup`: the system calls it issued, and the fatal
error (if any) it recorded before `exit(1)`. -/
structure SwitchGroupResult where
  calls : List GroupSyscall
  fatalError : Option FatalSetupperError

/-- `switchGroup` (SpawnEnvSetupperMain.cpp lines 425-498), on a platform
where the `getgrouplist`/`setgroups` branch is compiled in.  `userInfo`
is the passwd entry's `pw_name` when the lookup succeeded.  Note the
source passes the freshly allocated `gidset` array to `setgroups` without
ever copying the fetched `groups` into it. -/
def switchGroup (os : GroupOs) (userInfo : Option String) (gid : Nat) :
    SwitchGroupResult :=
  let setgidPart : List GroupSyscall → SwitchGroupResult := fun callsSoFar =>
    match os.setgidErrno with
    | some e =>
      { calls := callsSoFar ++ [GroupSyscall.setgidCall gid],
        fatalError := some
          { category := ErrorCategory.OPERATING_SYSTEM_ERROR,
            summary := "setgid(" ++ toString gid ++ ") failed: " ++ os.strerror e
              ++ " (errno=" ++ toString e ++ ")" } }
    | none =>
      { calls := callsSoFar ++ [GroupSyscall.setgidCall gid], fatalError := none }
  match userInfo with
  | none => setgidPart []
  | some pwName =>
    match os.getgrouplistRes with
    | .error e =>
      { calls := [],
        fatalError := some
          { category := ErrorCategory.OPERATING_SYSTEM_ERROR,
            summary := "getgrouplist(" ++ pwName ++ ", " ++ toString gid
              ++ ") failed: " ++ os.strerror e ++ " (errno=" ++ toString e ++ ")" } }
    | .ok groups =>
      let ngroups := groups.length
      if ngroups ≤ os.ngroupsMax then
        -- setgroupsCalled = true; gidset.reset(new gid_t[ngroups]);
        -- setgroups(ngroups, gidset.get())
        let gidset := os.uninitMemory ngroups
        match os.setgroupsErrno with
        | some e =>
          { calls := [GroupSyscall.setgroupsCall ngroups gidset],
            fatalError := some
              { category := ErrorCategory.OPERATING_SYSTEM_ERROR,
                summary := "setgroups(" ++ toString ngroups ++ ", ...) failed: "
                  ++ os.strerror e ++ " (errno=" ++ toString e ++ ")" } }
        | none => setgidPart [GroupSyscall.setgroupsCall ngroups gidset]
      else
        match os.initgroupsErrno with
        | some e =>
          { calls := [GroupSyscall.initgroupsCall pwName gid],
            fatalError := some
              { category := ErrorCategory.OPERATING_SYSTEM_ERROR,
                summary := "initgroups(" ++ pwName ++ ", " ++ toString gid
                  ++ ") failed: " ++ os.strerror e ++ " (errno=" ++ toString e ++ ")" } }
        | none => setgidPart [GroupSyscall.initgroupsCall pwName gid]

/-- Concrete OS behavior used to evaluate `switchGroup`: the target user
has supplementary groups `[100, 27]`, `NGROUPS_MAX` is 65536, every call
succeeds, and freshly allocated memory happens to contain 9999s. -/
def exampleGroupOs : GroupOs :=
  { ngroupsMax := 65536,
    getgrouplistRes := .ok [100, 27],
    uninitMemory := fun n => List.replicate n 9999,
    setgroupsErrno := none,
    initgroupsErrno := none,
    setgidErrno := none,
    strerror := fun _ => "Operation not permitted" }

end SpawnEnvSetupper

namespace SpawningKit

open JourneyType JourneyStep JourneyStepState

/-- C3 (code evaluated at the failing input): with `startTime = 0`,
`now = 10` and a remaining timeout of 1000 µs, `adjustTimeout` sets the
timeout to 0 — the unsigned underflow of `diff = startTime - now` makes the
computed difference astronomically large — whereas the claimed behavior
(decrement by the elapsed time, saturating at zero) would leave 990. -/
theorem adjustTimeout_zeroes_timeout_on_any_elapsed_time :
    SmartSpawner.adjustTimeout 0 10 1000 = 0 ∧
    SmartSpawner.claimedAdjustTimeout 0 10 1000 = 990 ∧
    SmartSpawner.adjustTimeout 0 10 1000 ≠
      SmartSpawner.claimedAdjustTimeout 0 10 1000 := by
  refine ⟨by decide, by decide, by decide⟩

/-- C4 (code evaluated at the failing input): for preloader pid 777 with
actual UID 0 and expected UID 501, the exception summary does report both
UIDs, but the problem-description HTML is identical to the one produced
when the actual UID is 999 — it interpolates the expected UID twice and
never mentions the actual UID, contradicting the claim that both values
are printed in the HTML. -/
theorem uidMismatchHTML_ignores_actual_uid :
    SmartSpawner.uidMismatchSummary 777 0 501 =
      "The process that the preloader said it spawned, PID 777, has UID 0, but the expected UID is 501" ∧
    SmartSpawner.uidMismatchProblemDescriptionHTML 0 501 =
      SmartSpawner.uidMismatchProblemDescriptionHTML 999 501 := by
  exact ⟨rfl, rfl⟩

/-- C6 counterexample: the claim says a `SpawnDirectly` journey is
populated with all subprocess steps, but the constructor does not insert
`SUBPROCESS_PREPARE_AFTER_FORKING_FROM_PRELOADER` for `SpawnDirectly`
(nor for `StartPreloader`). -/
theorem spawnDirectly_lacks_prepareAfterForking_step :
    (Journey.new SPAWN_DIRECTLY true).hasStep
      SUBPROCESS_PREPARE_AFTER_FORKING_FROM_PRELOADER = false ∧
    (Journey.new START_PRELOADER true).hasStep
      SUBPROCESS_PREPARE_AFTER_FORKING_FROM_PRELOADER = false := by
  decide

/-- C6 (amended): for every journey type, wrapper flag and step, the
constructor populates exactly the amended §3 table: for `SpawnDirectly`
and `StartPreloader`, the orchestrator steps Preparation, ForkSubprocess,
HandshakePerform, Finish plus all subprocess steps except
`PrepareAfterForkingFromPreloader`, with the wrapper steps present iff
`usingWrapper`; for `SpawnThroughPreloader`, the eight orchestrator steps,
all four preloader steps and exactly the three subprocess steps
prepare-after-fork, listen, finish. -/
theorem journey_constructor_populates_amended_table :
    ∀ (type : JourneyType) (usingWrapper : Bool) (s : JourneyStep),
      (Journey.new type usingWrapper).hasStep s =
        amendedJourneyStepTable type usingWrapper s := by
  decide

/-- C10 (code evaluated at the failing input): when the preloader reports
pid 777, the spawned process's UID matches the expected UID, and the work
directory contains no `response/stdout_and_err` FIFO, the success path of
`handleForkCommandResponseSuccess` reaches `stdoutAndErrCapturer->stop()`
with a null capturer pointer — a null-pointer dereference — while the same
call with the FIFO present returns normally. -/
theorem handleForkCommandResponseSuccess_null_capturer_deref :
    SmartSpawner.handleForkCommandResponseSuccess
        (Journey.new SPAWN_THROUGH_PRELOADER true) 0 777 false 501 501 =
      SmartSpawner.HandleSuccessOutcome.nullPointerDeref ∧
    SmartSpawner.handleForkCommandResponseSuccess
        (Journey.new SPAWN_THROUGH_PRELOADER true) 0 777 true 501 501 =
      SmartSpawner.HandleSuccessOutcome.ok 777 := by
  exact ⟨rfl, rfl⟩

/-- C2 counterexample: with `force == false`, the mutators accept
transitions outside the claimed set {NotStarted→InProgress,
InProgress→Performed, InProgress→Errored, NotStarted→NotStarted}:
`setStepNotStarted` succeeds on an `InProgress` step
(InProgress→NotStarted), `setStepInProgress` succeeds on an `InProgress`
step, `setStepErrored` succeeds on an `Errored` step, and — directly
contradicting the claim's "in particular" — `setStepPerformed` succeeds on
steps that are `NotStarted` and `Errored`. -/
theorem mutators_allow_transitions_outside_claimed_set :
    ((journeyWithStepState SPAWN_THROUGH_PRELOADER true
        SPAWNING_KIT_CONNECT_TO_PRELOADER STEP_IN_PROGRESS).setStepNotStarted
      SPAWNING_KIT_CONNECT_TO_PRELOADER false).isOk = true ∧
    ((journeyWithStepState SPAWN_THROUGH_PRELOADER true
        SPAWNING_KIT_CONNECT_TO_PRELOADER STEP_IN_PROGRESS).setStepInProgress
      SPAWNING_KIT_CONNECT_TO_PRELOADER false 5).isOk = true ∧
    ((journeyWithStepState SPAWN_THROUGH_PRELOADER true
        SPAWNING_KIT_CONNECT_TO_PRELOADER STEP_ERRORED).setStepErrored
      SPAWNING_KIT_CONNECT_TO_PRELOADER false 5).isOk = true ∧
    ((journeyWithStepState SPAWN_THROUGH_PRELOADER true
        SPAWNING_KIT_CONNECT_TO_PRELOADER STEP_NOT_STARTED).setStepPerformed
      SPAWNING_KIT_CONNECT_TO_PRELOADER false 5).isOk = true ∧
    ((journeyWithStepState SPAWN_THROUGH_PRELOADER true
        SPAWNING_KIT_CONNECT_TO_PRELOADER STEP_ERRORED).setStepPerformed
      SPAWNING_KIT_CONNECT_TO_PRELOADER false 5).isOk = true := by
  refine ⟨rfl, rfl, rfl, rfl, rfl⟩

/-- C2 (amended): for every populated journey step, the mutators with
`force == false` behave exactly as `transitionCharacterization` states:
`setStepNotStarted` succeeds iff the step is `NotStarted` or `InProgress`,
`setStepInProgress` succeeds iff the step is `NotStarted` or (as a no-op)
`InProgress`, `setStepPerformed` always succeeds (the source guard is
`info.state == STEP_IN_PROGRESS || true`), and `setStepErrored` succeeds
iff the step is `InProgress` or (as a no-op) `Errored`; every other source
state makes the mutator fail with an exception. -/
theorem mutator_transitions_characterized (j : Journey) (step : JourneyStep)
    (info : JourneyStepInfo) (now : Nat) (h : j.steps step = some info) :
    transitionCharacterization j step info now := by
  unfold transitionCharacterization Journey.setStepNotStarted
    Journey.setStepInProgress Journey.setStepPerformed Journey.setStepErrored
  rw [h]
  obtain ⟨st, sa, sb⟩ := info
  cases st <;> exact ⟨rfl, rfl, rfl, rfl⟩

/-- Witness for C2's amended theorem at a concrete journey whose
`SendCommandToPreloader` step is `InProgress`. -/
theorem mutator_transitions_characterized_witness :
    transitionCharacterization
      (journeyWithStepState SPAWN_THROUGH_PRELOADER true
        SPAWNING_KIT_SEND_COMMAND_TO_PRELOADER STEP_IN_PROGRESS)
      SPAWNING_KIT_SEND_COMMAND_TO_PRELOADER
      { state := STEP_IN_PROGRESS, startTime := 0, endTime := 0 } 7 :=
  mutator_transitions_characterized
    (journeyWithStepState SPAWN_THROUGH_PRELOADER true
      SPAWNING_KIT_SEND_COMMAND_TO_PRELOADER STEP_IN_PROGRESS)
    SPAWNING_KIT_SEND_COMMAND_TO_PRELOADER
    { state := STEP_IN_PROGRESS, startTime := 0, endTime := 0 } 7 rfl

/-- C5: reading the preloader's fork-command response from the journey
state at the call site accepts a line of up to exactly 10240 bytes and
returns it unchanged; a longer line makes `readForkCommandResponse` raise
a `SpawnException` of category `InternalError` whose summary reports that
the response exceeds the maximum size limit, with the journey step
`ReadResponseFromPreloader` set to `Errored`. -/
theorem readForkCommandResponse_bounds_line_at_10240 (usingWrapper : Bool)
    (now : Nat) (line : List Char) :
    (SmartSpawner.journeyAtReadResponse usingWrapper now).isOk = true ∧
    (line.length ≤ 10240 →
      SmartSpawner.readForkCommandResponse
          (SmartSpawner.journeyAtRead usingWrapper now) now line =
        SmartSpawner.SpawnOutcome.ok line) ∧
    (10240 < line.length →
      (SmartSpawner.readForkCommandResponse
          (SmartSpawner.journeyAtRead usingWrapper now) now line).checkSpawnExc
        (fun e =>
          (e.category == ErrorCategory.INTERNAL_ERROR)
          && e.summary == "The preloader process sent a response that exceeds the maximum size limit."
          && (e.journey.stepState SPAWNING_KIT_READ_RESPONSE_FROM_PRELOADER ==
                some STEP_ERRORED)) = true) := by
  refine ⟨?_, ?_, ?_⟩
  · cases usingWrapper <;> rfl
  · intro h
    unfold SmartSpawner.readForkCommandResponse SmartSpawner.readLine
    rw [if_neg (by omega)]
  · intro h
    unfold SmartSpawner.readForkCommandResponse SmartSpawner.readLine
    rw [if_pos (by omega)]
    cases usingWrapper <;> rfl

/-- Witness for C5 at the boundary: a 10240-byte line is accepted and a
10241-byte line produces the internal-error SpawnException with the
maximum-size summary and `ReadResponseFromPreloader` errored. -/
theorem readForkCommandResponse_bounds_witness :
    ((List.replicate 10240 'a').length ≤ 10240 ∧
      SmartSpawner.readForkCommandResponse (SmartSpawner.journeyAtRead true 0) 0
          (List.replicate 10240 'a') =
        SmartSpawner.SpawnOutcome.ok (List.replicate 10240 'a')) ∧
    (10240 < (List.replicate 10241 'a').length ∧
      (SmartSpawner.readForkCommandResponse (SmartSpawner.journeyAtRead true 0) 0
          (List.replicate 10241 'a')).checkSpawnExc
        (fun e =>
          (e.category == ErrorCategory.INTERNAL_ERROR)
          && e.summary == "The preloader process sent a response that exceeds the maximum size limit."
          && (e.journey.stepState SPAWNING_KIT_READ_RESPONSE_FROM_PRELOADER ==
                some STEP_ERRORED)) = true) := by
  have h1 : (List.replicate 10240 'a').length ≤ 10240 := by
    rw [List.length_replicate]
  have h2 : 10240 < (List.replicate 10241 'a').length := by
    rw [List.length_replicate]; omega
  constructor
  · exact ⟨h1,
      (readForkCommandResponse_bounds_line_at_10240 true 0
        (List.replicate 10240 'a')).2.1 h1⟩
  · exact ⟨h2,
      (readForkCommandResponse_bounds_line_at_10240 true 0
        (List.replicate 10241 'a')).2.2 h2⟩

/-- Every step constructor occurs in the declaration-ordered list. -/
theorem mem_allJourneySteps : ∀ s : JourneyStep, s ∈ allJourneySteps := by
  decide

/-- The declaration-ordered list is strictly sorted by enum position. -/
theorem allJourneySteps_sorted :
    allJourneySteps.Pairwise (fun a b => stepIdx a < stepIdx b) := by
  decide

/-- On a list strictly sorted by `stepIdx`, `find?` skips no earlier
position: everything with a smaller index than the found element fails the
predicate. -/
theorem find?_min_of_sorted (q : JourneyStep → Bool) :
    ∀ l : List JourneyStep, l.Pairwise (fun a b => stepIdx a < stepIdx b) →
      ∀ s, l.find? q = some s →
        ∀ s', s' ∈ l → stepIdx s' < stepIdx s → q s' = false := by
  intro l
  induction l with
  | nil =>
    intro _ s hf
    simp [List.find?] at hf
  | cons hd tl ih =>
    intro hp s hf s' hs' hlt
    rw [List.pairwise_cons] at hp
    by_cases hq : q hd = true
    · rw [List.find?_cons_of_pos _ hq] at hf
      injection hf with hf
      subst hf
      rcases List.mem_cons.mp hs' with h1 | h1
      · subst h1
        exact absurd hlt (lt_irrefl _)
      · exact absurd hlt (not_lt_of_gt (hp.1 s' h1))
    · rw [List.find?_cons_of_neg _ hq] at hf
      rcases List.mem_cons.mp hs' with h1 | h1
      · subst h1
        exact Bool.not_eq_true _ ▸ (by simpa using hq)
      · exact ih hp.2 s hf s' h1 hlt

/-- C7: for every journey whose map does not hold the `Unknown` sentinel as
a key (true of every constructor-built journey), `getFirstFailedStep`
returns `Unknown` iff no populated step is `Errored`, and a non-`Unknown`
result is an errored populated step such that every step strictly earlier
in enum declaration order is not errored. -/
theorem getFirstFailedStep_characterized (j : Journey)
    (h : j.steps UNKNOWN_JOURNEY_STEP = none) :
    firstFailedCharacterization j := by
  constructor
  · constructor
    · intro hu s info hsome heq
      have hb : j.stepErroredB s = true := by
        unfold Journey.stepErroredB
        rw [hsome]
        simp [heq]
      unfold Journey.getFirstFailedStep at hu
      cases hfind : allJourneySteps.find? j.stepErroredB with
      | none =>
        exact (List.find?_eq_none.mp hfind s (mem_allJourneySteps s)) hb
      | some t =>
        rw [hfind] at hu
        simp only at hu
        subst hu
        have ht := List.find?_some hfind
        unfold Journey.stepErroredB at ht
        rw [h] at ht
        cases ht
    · intro hall
      unfold Journey.getFirstFailedStep
      have hnone : allJourneySteps.find? j.stepErroredB = none := by
        rw [List.find?_eq_none]
        intro x _ hx
        unfold Journey.stepErroredB at hx
        cases hx2 : j.steps x with
        | none => rw [hx2] at hx; cases hx
        | some info =>
          rw [hx2] at hx
          exact hall x info hx2 (by simpa using hx)
      rw [hnone]
  · intro s hs hnunk
    unfold Journey.getFirstFailedStep at hs
    cases hfind : allJourneySteps.find? j.stepErroredB with
    | none =>
      rw [hfind] at hs
      simp only at hs
      exact absurd hs.symm hnunk
    | some t =>
      rw [hfind] at hs
      simp only at hs
      subst hs
      constructor
      · have hp := List.find?_some hfind
        unfold Journey.stepErroredB at hp
        cases hsx : j.steps t with
        | none => rw [hsx] at hp; cases hp
        | some info =>
          rw [hsx] at hp
          exact ⟨info, rfl, by simpa using hp⟩
      · intro s' info' hlt hsome' heq
        have hmin := find?_min_of_sorted j.stepErroredB allJourneySteps
          allJourneySteps_sorted t hfind s' (mem_allJourneySteps s') hlt
        unfold Journey.stepErroredB at hmin
        rw [hsome'] at hmin
        simp [heq] at hmin

/-- Witness for C7 at a concrete journey whose `SendCommandToPreloader`
step is errored. -/
theorem getFirstFailedStep_characterized_witness :
    firstFailedCharacterization
      (journeyWithStepState SPAWN_THROUGH_PRELOADER true
        SPAWNING_KIT_SEND_COMMAND_TO_PRELOADER STEP_ERRORED) :=
  getFirstFailedStep_characterized
    (journeyWithStepState SPAWN_THROUGH_PRELOADER true
      SPAWNING_KIT_SEND_COMMAND_TO_PRELOADER STEP_ERRORED) rfl

/-- C1 (code evaluated at the failing input): starting from the journey
that `spawn` passes to `invokeForkCommand`, a first fork-command attempt
that crashes while reading the preloader's response (so
`ConnectToPreloader` and `SendCommandToPreloader` are already `Performed`)
makes the crash handler's `setStepNotStarted(ConnectToPreloader)` — called
with the default `force = false` — throw a RuntimeException instead of
resetting the step, so the preloader is never restarted and no retry
happens.  Only when the crash strikes during the connect itself (all three
steps still resettable) does the claimed recovery run; a second crash then
does yield the SpawnException with summary
"An application preloader crashed: ..." and `Preparation` errored, its
category inferred from the wrapped exception's kind (OperatingSystemError
for a SystemException, IoError for an IOException). -/
theorem invokeForkCommand_crash_during_read_aborts_retry :
    (SmartSpawner.journeyAtInvokeForkCommand true 0).isOk = true ∧
    (SmartSpawner.invokeForkCommand
        (SmartSpawner.CrashSite.duringRead
          (SmartSpawner.PreloaderCrashed.systemException "Connection reset by peer"))
        SmartSpawner.CrashSite.noCrash
        SmartSpawner.startJourneyForSpawn 0).isRuntimeExcWith
      "Unable to change state for journey step SPAWNING_KIT_CONNECT_TO_PRELOADER because it wasn't already in progress"
      = true ∧
    (SmartSpawner.invokeForkCommand
        (SmartSpawner.CrashSite.duringConnect
          (SmartSpawner.PreloaderCrashed.systemException "ECONNREFUSED"))
        (SmartSpawner.CrashSite.duringConnect
          (SmartSpawner.PreloaderCrashed.systemException "ECONNREFUSED"))
        SmartSpawner.startJourneyForSpawn 0).checkSpawnExc
      (fun e =>
        e.summary == "An application preloader crashed: ECONNREFUSED"
        && (e.category == ErrorCategory.OPERATING_SYSTEM_ERROR)
        && (e.journey.stepState SPAWNING_KIT_PREPARATION == some STEP_ERRORED))
      = true ∧
    (SmartSpawner.invokeForkCommand
        (SmartSpawner.CrashSite.duringConnect
          (SmartSpawner.PreloaderCrashed.ioException "Broken pipe"))
        (SmartSpawner.CrashSite.duringConnect
          (SmartSpawner.PreloaderCrashed.ioException "Broken pipe"))
        SmartSpawner.startJourneyForSpawn 0).checkSpawnExc
      (fun e =>
        e.summary == "An application preloader crashed: Broken pipe"
        && (e.category == ErrorCategory.IO_ERROR)
        && (e.journey.stepState SPAWNING_KIT_PREPARATION == some STEP_ERRORED))
      = true := by
  refine ⟨rfl, by decide, by decide, by decide⟩

end SpawningKit

namespace SpawnEnvSetupper

/-- C9 (code evaluated at the failing input): for a user whose
`getgrouplist` result is `[100, 27]` (within `NGROUPS_MAX`), `switchGroup`
calls `setgroups` with the right count but with the contents of the
freshly allocated, never-initialized `gid_t` array (here 9999s) rather
than the fetched group list, and then calls `setgid`; the call with the
fetched list never happens. -/
theorem switchGroup_passes_uninitialized_gidset_to_setgroups :
    (switchGroup exampleGroupOs (some "app") 100).calls =
      [GroupSyscall.setgroupsCall 2 [9999, 9999], GroupSyscall.setgidCall 100] ∧
    (switchGroup exampleGroupOs (some "app") 100).calls.contains
      (GroupSyscall.setgroupsCall 2 [100, 27]) = false ∧
    (switchGroup exampleGroupOs (some "app") 100).fatalError = none := by
  refine ⟨by decide, by decide, by decide⟩

/-- Folding `setenv` over a variable list resolves a lookup to the last
assignment of that key, falling back to the starting environment. -/
theorem foldl_setenv_lookup (vars : List (String × String)) (e : Env) (k : String) :
    (vars.foldl (fun acc kv => setenvF acc kv.1 kv.2) e) k =
      (match vars.reverse.find? (fun kv => kv.1 == k) with
       | some kv => some kv.2
       | none => e k) := by
  induction vars generalizing e with
  | nil => rfl
  | cons hd tl ih =>
    show (tl.foldl (fun acc kv => setenvF acc kv.1 kv.2) (setenvF e hd.1 hd.2)) k = _
    rw [ih (setenvF e hd.1 hd.2), List.reverse_cons, List.find?_append]
    cases hf : tl.reverse.find? (fun kv => kv.1 == k) with
    | some kv => simp [Option.or]
    | none =>
      simp only [Option.none_or]
      by_cases hk : hd.1 = k
      · subst hk
        simp [List.find?, setenvF]
      · have hk' : ¬(k = hd.1) := fun hh => hk hh.symm
        have hkb : (hd.1 == k) = false := by simpa using hk
        simp [List.find?, setenvF, hk', hkb]

/-- C8: in `--after` mode the setupper's defaults set `PYTHONUNBUFFERED`
to "1", `NODE_PATH` from `node_libdir`, the five app-env variables from
`app_env`, `PORT` from `expected_start_port` when present, and the three
base-URI variables from `base_uri` when it is not "/" (unsetting them
otherwise); the user-specified `environment_variables` are applied
afterwards, so any key they mention resolves to the user-specified value
(the last one, for a repeated key) and every other key keeps its default. -/
theorem afterMode_sets_defaults_then_user_overrides
    (args : SetupperArgs) (env : Env) :
    setDefaultEnvvars args env "PYTHONUNBUFFERED" = some "1"
    ∧ setDefaultEnvvars args env "NODE_PATH" = some args.node_libdir
    ∧ setDefaultEnvvars args env "RAILS_ENV" = some args.app_env
    ∧ setDefaultEnvvars args env "RACK_ENV" = some args.app_env
    ∧ setDefaultEnvvars args env "WSGI_ENV" = some args.app_env
    ∧ setDefaultEnvvars args env "NODE_ENV" = some args.app_env
    ∧ setDefaultEnvvars args env "PASSENGER_APP_ENV" = some args.app_env
    ∧ setDefaultEnvvars args env "PORT" =
        (match args.expected_start_port with
         | some p => some (toString p)
         | none => env "PORT")
    ∧ setDefaultEnvvars args env "RAILS_RELATIVE_URL_ROOT" =
        (if args.base_uri = "/" then none else some args.base_uri)
    ∧ setDefaultEnvvars args env "RACK_BASE_URI" =
        (if args.base_uri = "/" then none else some args.base_uri)
    ∧ setDefaultEnvvars args env "PASSENGER_BASE_URI" =
        (if args.base_uri = "/" then none else some args.base_uri)
    ∧ ∀ k, afterModeEnvSetup args env k =
        (match args.environment_variables.reverse.find? (fun kv => kv.1 == k) with
         | some kv => some kv.2
         | none => setDefaultEnvvars args env k) := by
  have huser : ∀ k, afterModeEnvSetup args env k =
      (match args.environment_variables.reverse.find? (fun kv => kv.1 == k) with
       | some kv => some kv.2
       | none => setDefaultEnvvars args env k) := by
    intro k
    exact foldl_setenv_lookup args.environment_variables
      (setDefaultEnvvars args env) k
  refine ⟨?_, ?_, ?_, ?_, ?_, ?_, ?_, ?_, ?_, ?_, ?_, huser⟩ <;>
    (cases hp : args.expected_start_port <;>
      by_cases hb : args.base_uri = "/" <;>
      simp [setDefaultEnvvars, setenvF, unsetenvF, hp, hb])

end SpawnEnvSetupper
